import Mathlib

/-!
Verification of the Source-engine model decoders of `rust_tower_defense`
(`src/graphics/models/source_engine.rs` and its submodules `mdl_reader.rs`,
`vvd_reader.rs`, `vtx_reader.rs`).

The Rust code reads whole files into byte buffers and reinterprets byte
ranges as `#[repr(C)]` structs via the `copy_c_struct!` macro (a bounds-checked
slice followed by an unchecked pointer cast).  We embed a byte buffer as a
`List Nat` of bytes and decode each consumed field at its exact `#[repr(C)]`
byte offset, little-endian.  `f32` fields are carried as their raw 32-bit
little-endian bit patterns (the program never performs arithmetic on them;
they are only copied), and `i32` fields as mathematical integers produced by
two's-complement decoding.

Failure modes are modelled explicitly: each Rust `Err(...)` return becomes an
`Except`-error carrying the reader's error kind and message string, a Rust
panic (out-of-bounds slice index, `assert!`, `Option::unwrap` on `None`)
becomes the distinguished `rustPanic` error, and the one genuinely unchecked
read (the mdl header pointer cast, which has no bounds check at all) becomes
`undefinedBehavior` when the buffer is shorter than the header.
-/

namespace RTD

set_option maxRecDepth 100000

/-- Byte of the buffer at index `i` (only consulted at in-bounds indices:
every decode is guarded by the `copy_c_struct` bounds check or an explicit
length hypothesis, so the `0` default is never observable). -/
def byteAt (d : List Nat) (i : Nat) : Nat := d.getD i 0

/-- Little-endian 32-bit value of the four bytes at `off`. -/
def le32 (d : List Nat) (off : Nat) : Nat :=
  byteAt d off + 256 * byteAt d (off + 1) + 65536 * byteAt d (off + 2) +
    16777216 * byteAt d (off + 3)

/-- A little-endian `i32` field: two's-complement decoding of `le32`. -/
def i32At (d : List Nat) (off : Nat) : Int :=
  let v := le32 d off
  if v < 2147483648 then (v : Int) else (v : Int) - 4294967296

/-- A little-endian `u16` field. -/
def u16At (d : List Nat) (off : Nat) : Nat :=
  byteAt d off + 256 * byteAt d (off + 1)

/-- An `f32` field, carried as its raw little-endian bit pattern: the program
only copies these values, so bit-pattern equality is float equality. -/
def f32At (d : List Nat) (off : Nat) : Nat := le32 d off

/-- Rust `x as usize` for a (two's-complement) `i32` value on a 64-bit
target: negative values wrap modulo 2^64. -/
def i32ToUsize (x : Int) : Nat := (x % 18446744073709551616).toNat

/-- The error kinds a `load_model` call can surface.  The first four mirror
the Rust error structs (`MDLDeserializeError`, `VVDDeserializeError`,
`VTXDeserializeError`, `ModelLoadError`), each a wrapper around a message
string.  `rustPanic` marks executions where the Rust code panics instead of
returning an `Err`, and `undefinedBehavior` marks the unchecked
out-of-bounds pointer read in `read_mdl_file_from_disk`. -/
inductive RtdError where
  | mdlErr (details : String)
  | vvdErr (details : String)
  | vtxErr (details : String)
  | modelLoadErr (details : String)
  | rustPanic (details : String)
  | undefinedBehavior (details : String)
  deriving DecidableEq

/-- Result type of a decoder step. -/
abbrev DecodeM (α : Type) := Except RtdError α

/-- Model of the `copy_c_struct!` macro: the struct of size `size` is read at
`size * i + start` after the slice bounds check; an out-of-bounds slice index
is a Rust panic, not an error return. -/
def copy_c_struct {α : Type} (size : Nat) (decode : List Nat → Nat → α)
    (start_index i : Nat) (data : List Nat) : DecodeM α :=
  let struct_start_index := size * i + start_index
  let struct_end_index := struct_start_index + size
  if struct_end_index ≤ data.length then .ok (decode data struct_start_index)
  else .error (.rustPanic "slice index out of range")

/-! ## vvd_reader.rs : vertex-data files -/

/-- Source `VVD_HEADER`, the little-endian `i32` reading of the magic tag
`[0x49, 0x44, 0x53, 0x56]` ("IDSV"). -/
def VVD_HEADER : Int := 1448297545

/-- Source `MAX_NUM_LODS` from studio.h. -/
def MAX_NUM_LODS : Nat := 8

/-- Source `VVDFileHeader`, 64 bytes: id 0, version 4, checksum 8, num_lods 12,
num_lod_vertexes 16 (8 × i32), num_fixups 48, fixup_table_start 52,
vertex_data_start 56, tangent_data_start 60. -/
structure VVDFileHeader where
  id : Int
  version : Int
  checksum : Int
  num_lods : Int
  num_lod_vertexes : List Int
  num_fixups : Int
  fixup_table_start : Int
  vertex_data_start : Int
  tangent_data_start : Int
  deriving DecidableEq

def sizeofVVDFileHeader : Nat := 64

def decodeVVDFileHeader (d : List Nat) (off : Nat) : VVDFileHeader where
  id := i32At d off
  version := i32At d (off + 4)
  checksum := i32At d (off + 8)
  num_lods := i32At d (off + 12)
  num_lod_vertexes := (List.range MAX_NUM_LODS).map (fun k => i32At d (off + 16 + 4 * k))
  num_fixups := i32At d (off + 48)
  fixup_table_start := i32At d (off + 52)
  vertex_data_start := i32At d (off + 56)
  tangent_data_start := i32At d (off + 60)

/-- Source `VVDFileFixupTable`, 12 bytes: lod 0, source_vertex_id 4, num_vertexes 8. -/
structure VVDFileFixupTable where
  lod : Int
  source_vertex_id : Int
  num_vertexes : Int
  deriving DecidableEq

def sizeofVVDFileFixupTable : Nat := 12

def decodeVVDFileFixupTable (d : List Nat) (off : Nat) : VVDFileFixupTable where
  lod := i32At d off
  source_vertex_id := i32At d (off + 4)
  num_vertexes := i32At d (off + 8)

/-- Source `SourceModelVector` from source_engine.rs: three `f32` components,
carried as raw bit patterns. -/
structure SourceModelVector where
  c0 : Nat
  c1 : Nat
  c2 : Nat
  deriving DecidableEq

/-- Source `SourceModelVector2D`: two `f32` components. -/
structure SourceModelVector2D where
  c0 : Nat
  c1 : Nat
  deriving DecidableEq

/-- Source `VVDFileBoneWeight`, 16 bytes: weight 0 (3 × f32), bone 12 (3 × u8),
num_bones 15. -/
structure VVDFileBoneWeight where
  weight : List Nat
  bone : List Nat
  num_bones : Nat
  deriving DecidableEq

/-- Source `VVDFileVertex`, 48 bytes: bone_weight 0, vec_position 16, vec_normal 28,
vec_tex_coord 40 (the layout documented in the reader's comment block). -/
structure VVDFileVertex where
  bone_weight : VVDFileBoneWeight
  vec_position : SourceModelVector
  vec_normal : SourceModelVector
  vec_tex_coord : SourceModelVector2D
  deriving DecidableEq

def sizeofVVDFileVertex : Nat := 48

def decodeSourceModelVector (d : List Nat) (off : Nat) : SourceModelVector where
  c0 := f32At d off
  c1 := f32At d (off + 4)
  c2 := f32At d (off + 8)

def decodeVVDFileVertex (d : List Nat) (off : Nat) : VVDFileVertex where
  bone_weight :=
    { weight := (List.range 3).map (fun k => f32At d (off + 4 * k))
      bone := (List.range 3).map (fun k => byteAt d (off + 12 + k))
      num_bones := byteAt d (off + 15) }
  vec_position := decodeSourceModelVector d (off + 16)
  vec_normal := decodeSourceModelVector d (off + 28)
  vec_tex_coord := { c0 := f32At d (off + 40), c1 := f32At d (off + 44) }

/-- Source `VVDFile`: the decoded vertex-data file. -/
structure VVDFile where
  header : VVDFileHeader
  fixup_table : Option VVDFileFixupTable
  vertices : List VVDFileVertex
  deriving DecidableEq

/-- The `if header.num_fixups > 0` block of `read_vvd_file_from_disk`: a
single `VVDFileFixupTable` is read at `fixup_table_start` (panicking on an
out-of-bounds slice), then `assert!(fixup_end_index <= vertex_data_start)`;
the decoded entry is dropped. -/
def read_vvd_fixups (vvd_data_bytes : List Nat) (header : VVDFileHeader) : DecodeM Unit :=
  let fixup_start_index := i32ToUsize header.fixup_table_start
  let fixup_end_index := fixup_start_index + sizeofVVDFileFixupTable
  match copy_c_struct sizeofVVDFileFixupTable decodeVVDFileFixupTable fixup_start_index 0
      vvd_data_bytes with
  | .error e => .error e
  | .ok _fixup_table =>
    if fixup_end_index ≤ i32ToUsize header.vertex_data_start then .ok ()
    else .error (.rustPanic "assertion failed: fixup_end_index <= header.vertex_data_start as usize")

/-- The vertex `while` loop of `read_vvd_file_from_disk`: starting from
iteration `i`, a `VVDFileVertex` is read at `vds + 48 * i` for as long as
that start index is `<=` `tds` (note: less-or-equal, so one record starting
exactly at the tangent block is still read). -/
def read_vvd_vertices (vvd_data_bytes : List Nat) (vds tds i : Nat) :
    DecodeM (List VVDFileVertex) :=
  if _h : vds + sizeofVVDFileVertex * i ≤ tds then
    match copy_c_struct sizeofVVDFileVertex decodeVVDFileVertex (vds + sizeofVVDFileVertex * i) 0
        vvd_data_bytes with
    | .error e => .error e
    | .ok vertex => (read_vvd_vertices vvd_data_bytes vds tds (i + 1)).map
        (fun rest => vertex :: rest)
  else .ok []
termination_by tds + 48 - (vds + 48 * i)
decreasing_by have h48 : sizeofVVDFileVertex = 48 := rfl; simp only [h48] at *; omega

/-- Source `read_vvd_file_from_disk`, after the file has been read into
`vvd_data_bytes`: decode the header (panicking if the buffer is shorter
than 64 bytes), check the "IDSV" magic, run the fixup block when
`num_fixups > 0`, read the flat vertex array, and return the `VVDFile`
with `fixup_table` set to `None`. -/
def read_vvd_file (vvd_data_bytes : List Nat) : DecodeM VVDFile :=
  match copy_c_struct sizeofVVDFileHeader decodeVVDFileHeader 0 0 vvd_data_bytes with
  | .error e => .error e
  | .ok header =>
    if header.id ≠ VVD_HEADER then
      .error (.vvdErr "vvd header not correct; expected [0x49, 0x44, 0x53, 0x56]")
    else
      match (if header.num_fixups > 0 then read_vvd_fixups vvd_data_bytes header
             else .ok ()) with
      | .error e => .error e
      | .ok _ =>
        match read_vvd_vertices vvd_data_bytes (i32ToUsize header.vertex_data_start)
            (i32ToUsize header.tangent_data_start) 0 with
        | .error e => .error e
        | .ok vertices =>
          .ok { header := header, fixup_table := none, vertices := vertices }

/-! ## mdl_reader.rs : studio-model files -/

/-- Source `MDL_HEADER`, the little-endian `i32` reading of the magic tag
`[0x49, 0x44, 0x53, 0x54]` ("IDST"). -/
def MDL_HEADER : Int := 1414743113

/-- Source `MDLFileHeader` (`#[repr(C)]`, 400 bytes, as the repo's own test
asserts).  Field byte offsets: id 0, version 4, checksum 8, name 12
(fixed 64-byte field), data_length 76, six 12-byte vectors 80..152,
flags 152, then the count/offset pairs; bodypart_count lands at 232 and
bodypart_offset at 236 (cross-check: the source comments place
surfaceprop_index at 308, which this layout reproduces).  Only the fields
the decoders consume are materialised; the rest are opaque padding that
contributes exactly the offsets above. -/
structure MDLFileHeader where
  id : Int
  version : Int
  checksum : Int
  name : List Nat
  bodypart_count : Int
  deriving DecidableEq

def sizeofMDLFileHeader : Nat := 400

def decodeMDLFileHeader (d : List Nat) (off : Nat) : MDLFileHeader where
  id := i32At d off
  version := i32At d (off + 4)
  checksum := i32At d (off + 8)
  name := (List.range 64).map (fun k => byteAt d (off + 12 + k))
  bodypart_count := i32At d (off + 232)

/-- UTF-8 validation/decoding, the semantics of Rust's `CStr::to_str`
(i.e. `str::from_utf8`) on the name bytes: `some` of the decoded scalar
values when the bytes are valid UTF-8 (correct continuation bytes, no
overlong forms, no surrogates, max U+10FFFF), `none` otherwise. -/
def utf8Decode : List Nat → Option (List Nat)
  | [] => some []
  | b0 :: rest =>
    if b0 < 128 then
      -- one-byte form U+0000..U+007F
      match utf8Decode rest with
      | some cs => some (b0 :: cs)
      | none => none
    else if b0 < 194 then
      -- stray continuation byte 80..BF, or overlong lead C0/C1
      none
    else if b0 < 224 then
      -- two-byte form, lead C2..DF: U+0080..U+07FF
      match rest with
      | b1 :: rest1 =>
        if 128 ≤ b1 ∧ b1 < 192 then
          match utf8Decode rest1 with
          | some cs => some (((b0 - 192) * 64 + (b1 - 128)) :: cs)
          | none => none
        else none
      | [] => none
    else if b0 < 240 then
      -- three-byte form, lead E0..EF: U+0800..U+FFFF minus surrogates;
      -- E0 requires b1 >= A0 (no overlongs), ED requires b1 < A0 (no surrogates)
      match rest with
      | b1 :: b2 :: rest2 =>
        if (if b0 = 224 then 160 ≤ b1 ∧ b1 < 192
            else if b0 = 237 then 128 ≤ b1 ∧ b1 < 160
            else 128 ≤ b1 ∧ b1 < 192) ∧ 128 ≤ b2 ∧ b2 < 192 then
          match utf8Decode rest2 with
          | some cs => some (((b0 - 224) * 4096 + (b1 - 128) * 64 + (b2 - 128)) :: cs)
          | none => none
        else none
      | _ => none
    else if b0 < 245 then
      -- four-byte form, lead F0..F4: U+10000..U+10FFFF;
      -- F0 requires b1 >= 90 (no overlongs), F4 requires b1 < 90 (max scalar)
      match rest with
      | b1 :: b2 :: b3 :: rest3 =>
        if (if b0 = 240 then 144 ≤ b1 ∧ b1 < 192
            else if b0 = 244 then 128 ≤ b1 ∧ b1 < 144
            else 128 ≤ b1 ∧ b1 < 192) ∧ 128 ≤ b2 ∧ b2 < 192 ∧ 128 ≤ b3 ∧ b3 < 192 then
          match utf8Decode rest3 with
          | some cs =>
            some (((b0 - 240) * 262144 + (b1 - 128) * 4096 + (b2 - 128) * 64 + (b3 - 128)) :: cs)
          | none => none
        else none
      | _ => none
    else
      -- F5..FF can never appear in UTF-8
      none

/-- Source `MDLFile`: the decoded header plus the display name (as the decoded
Unicode scalar values of the trimmed name field). -/
structure MDLFile where
  header : MDLFileHeader
  name : List Nat
  deriving DecidableEq

/-- The fixed-width name field of an mdl buffer (bytes 12..76 of the
header). -/
def mdlNameField (d : List Nat) : List Nat := (decodeMDLFileHeader d 0).name

/-- Source `read_mdl_file_from_disk`, after the file has been read into
`model_data_bytes`.  Unlike the other two readers this performs NO bounds
check before reinterpreting the buffer start as a 400-byte header (a raw
pointer cast), so a shorter buffer is an out-of-bounds read, not a panic
or an error.  After the magic check, the display name is produced by
scanning the 64-byte name field for the first NUL (`Option::unwrap`
panics when there is none), wrapping the prefix in a `CStr` (which cannot
fail, since the scan found the first NUL) and UTF-8-decoding it. -/
def read_mdl_file (model_data_bytes : List Nat) : DecodeM MDLFile :=
  if model_data_bytes.length < sizeofMDLFileHeader then
    .error (.undefinedBehavior "mdl header read past end of buffer")
  else
    let header := decodeMDLFileHeader model_data_bytes 0
    if header.id ≠ MDL_HEADER then
      .error (.mdlErr "mdl header not correct; expected [0x49, 0x44, 0x53, 0x54]")
    else
      match header.name.findIdx? (fun r => r = 0) with
      | none => .error (.rustPanic "called Option.unwrap on a None value")
      | some first_null =>
        match utf8Decode (header.name.take first_null) with
        | none => .error (.mdlErr "Error converting name to string")
        | some name => .ok { header := header, name := name }

/-! ## vtx_reader.rs : optimized-mesh (topology) files

All `copy_c_struct!` call sites are reproduced exactly as in the source,
including the ones where the caller passes a start index that already
contains the element stride AND a non-zero element index `i` (the macro
adds `size * i` again, doubling the stride): `read_bodyparts`,
`read_lods`, `read_strip_groups`, `read_vertices`, `read_indices` and
`read_strips` all do this; `read_models` passes the stride-free base, and
`read_meshes` only ever uses index 0. -/

def OPTIMIZED_MODEL_FILE_VERSION : Int := 7

/-- Source `VTXFileHeader` (`#[repr(C)]`, 36 bytes): version 0, vert_cache_size 4,
max_bones_per_strip 8 (u16), max_bones_per_tri 10 (u16),
max_bones_per_vert 12, checksum 16, num_lods 20,
material_replacement_list_offset 24, num_body_parts 28,
body_part_offset 32. -/
structure VTXFileHeader where
  version : Int
  vert_cache_size : Int
  max_bones_per_strip : Nat
  max_bones_per_tri : Nat
  max_bones_per_vert : Int
  checksum : Int
  num_lods : Int
  material_replacement_list_offset : Int
  num_body_parts : Int
  body_part_offset : Int
  deriving DecidableEq

def sizeofVTXFileHeader : Nat := 36

def decodeVTXFileHeader (d : List Nat) (off : Nat) : VTXFileHeader where
  version := i32At d off
  vert_cache_size := i32At d (off + 4)
  max_bones_per_strip := u16At d (off + 8)
  max_bones_per_tri := u16At d (off + 10)
  max_bones_per_vert := i32At d (off + 12)
  checksum := i32At d (off + 16)
  num_lods := i32At d (off + 20)
  material_replacement_list_offset := i32At d (off + 24)
  num_body_parts := i32At d (off + 28)
  body_part_offset := i32At d (off + 32)

/-- Source `VTXFileBodyPartHeader` (8 bytes): num_models 0, model_offset 4. -/
structure VTXFileBodyPartHeader where
  num_models : Int
  model_offset : Int
  deriving DecidableEq

def sizeofVTXFileBodyPartHeader : Nat := 8

def decodeVTXFileBodyPartHeader (d : List Nat) (off : Nat) : VTXFileBodyPartHeader where
  num_models := i32At d off
  model_offset := i32At d (off + 4)

/-- Source `VTXFileModelHeader` (8 bytes): num_lods 0, lod_offset 4. -/
structure VTXFileModelHeader where
  num_lods : Int
  lod_offset : Int
  deriving DecidableEq

def sizeofVTXFileModelHeader : Nat := 8

def decodeVTXFileModelHeader (d : List Nat) (off : Nat) : VTXFileModelHeader where
  num_lods := i32At d off
  lod_offset := i32At d (off + 4)

/-- Source `VTXFileModelLODHeader` (`#[repr(C)]`, 12 bytes, as the repo's test
asserts): num_meshes 0, mesh_offset 4, switch_point 8 (f32 bits). -/
structure VTXFileModelLODHeader where
  num_meshes : Int
  mesh_offset : Int
  switch_point : Nat
  deriving DecidableEq

def sizeofVTXFileModelLODHeader : Nat := 12

def decodeVTXFileModelLODHeader (d : List Nat) (off : Nat) : VTXFileModelLODHeader where
  num_meshes := i32At d off
  mesh_offset := i32At d (off + 4)
  switch_point := f32At d (off + 8)

/-- Source `VTXFileMeshHeader` (`#[repr(C)]`: i32, i32, u8, 3 padding bytes,
size 12): num_strip_groups 0, strip_group_header_offset 4, flags 8. -/
structure VTXFileMeshHeader where
  num_strip_groups : Int
  strip_group_header_offset : Int
  flags : Nat
  deriving DecidableEq

def sizeofVTXFileMeshHeader : Nat := 12

def decodeVTXFileMeshHeader (d : List Nat) (off : Nat) : VTXFileMeshHeader where
  num_strip_groups := i32At d off
  strip_group_header_offset := i32At d (off + 4)
  flags := byteAt d (off + 8)

/-- Source `VTXFileStripGroupHeader` (`#[repr(C)]`: six i32 then u8, 3 padding
bytes, size 28): num_verts 0, vert_offset 4, num_indices 8,
index_offset 12, num_strips 16, strip_offset 20, flags 24. -/
structure VTXFileStripGroupHeader where
  num_verts : Int
  vert_offset : Int
  num_indices : Int
  index_offset : Int
  num_strips : Int
  strip_offset : Int
  flags : Nat
  deriving DecidableEq

def sizeofVTXFileStripGroupHeader : Nat := 28

def decodeVTXFileStripGroupHeader (d : List Nat) (off : Nat) : VTXFileStripGroupHeader where
  num_verts := i32At d off
  vert_offset := i32At d (off + 4)
  num_indices := i32At d (off + 8)
  index_offset := i32At d (off + 12)
  num_strips := i32At d (off + 16)
  strip_offset := i32At d (off + 20)
  flags := byteAt d (off + 24)

/-- Source `VTXFileVertex` (3 × u8, u8, u16, 3 × u8; 9 content bytes, size 10 with
the trailing alignment byte): bone_weight_index 0, num_bones 3,
orig_mesh_vert_id 4, bone_id 6. -/
structure VTXFileVertex where
  bone_weight_index : List Nat
  num_bones : Nat
  orig_mesh_vert_id : Nat
  bone_id : List Nat
  deriving DecidableEq

def sizeofVTXFileVertex : Nat := 10

def decodeVTXFileVertex (d : List Nat) (off : Nat) : VTXFileVertex where
  bone_weight_index := (List.range 3).map (fun k => byteAt d (off + k))
  num_bones := byteAt d (off + 3)
  orig_mesh_vert_id := u16At d (off + 4)
  bone_id := (List.range 3).map (fun k => byteAt d (off + 6 + k))

/-- Source `VTXFileIndex` (2 bytes): a single u16 position. -/
structure VTXFileIndex where
  position : Nat
  deriving DecidableEq

def sizeofVTXFileIndex : Nat := 2

def decodeVTXFileIndex (d : List Nat) (off : Nat) : VTXFileIndex where
  position := u16At d off

/-- Source `VTXFileStripHeader` (`#[repr(C)]`: 4 × i32, i16, u8, 1 padding byte,
2 × i32, size 28): num_indices 0, index_offset 4, num_verts 8,
vert_offset 12, num_bones 16 (i16, decoded as its unsigned reading — no
sign-sensitive use exists), flags 18, num_bone_state_changes 20,
bone_state_change_offset 24. -/
structure VTXFileStripHeader where
  num_indices : Int
  index_offset : Int
  num_verts : Int
  vert_offset : Int
  num_bones : Nat
  flags : Nat
  num_bone_state_changes : Int
  bone_state_change_offset : Int
  deriving DecidableEq

def sizeofVTXFileStripHeader : Nat := 28

def decodeVTXFileStripHeader (d : List Nat) (off : Nat) : VTXFileStripHeader where
  num_indices := i32At d off
  index_offset := i32At d (off + 4)
  num_verts := i32At d (off + 8)
  vert_offset := i32At d (off + 12)
  num_bones := u16At d (off + 16)
  flags := byteAt d (off + 18)
  num_bone_state_changes := i32At d (off + 20)
  bone_state_change_offset := i32At d (off + 24)

/-- Source `Strip`: a strip header (the bone-state-change sub-table is never
decoded). -/
structure Strip where
  header : VTXFileStripHeader
  deriving DecidableEq

/-- Source `StripGroup`: header plus decoded vertex, index and strip arrays. -/
structure StripGroup where
  header : VTXFileStripGroupHeader
  vertices : List VTXFileVertex
  indices : List VTXFileIndex
  strips : List Strip
  deriving DecidableEq

structure Mesh where
  header : VTXFileMeshHeader
  strip_groups : List StripGroup
  deriving DecidableEq

structure LOD where
  header : VTXFileModelLODHeader
  meshes : List Mesh
  deriving DecidableEq

structure Model where
  header : VTXFileModelHeader
  lods : List LOD
  deriving DecidableEq

structure BodyPart where
  header : VTXFileBodyPartHeader
  models : List Model
  deriving DecidableEq

structure VTXFile where
  header : VTXFileHeader
  bodyparts : List BodyPart
  deriving DecidableEq

/-- Source `VTXDeserializer::read_vertices`: one `VTXFileVertex` per
`0..num_verts`; the start index passed to the macro already contains
`vertex_num * size` and the macro adds `size * vertex_num` again. -/
def read_vertices (strip_group_header : VTXFileStripGroupHeader)
    (strip_group_start_index : Nat) (vtx_data_bytes : List Nat) :
    DecodeM (List VTXFileVertex) :=
  (List.range strip_group_header.num_verts.toNat).mapM (fun vertex_num =>
    let vertex_start_index := strip_group_start_index
      + i32ToUsize strip_group_header.vert_offset + vertex_num * sizeofVTXFileVertex
    copy_c_struct sizeofVTXFileVertex decodeVTXFileVertex vertex_start_index vertex_num
      vtx_data_bytes)

/-- Source `VTXDeserializer::read_indices` (same doubled-stride call shape). -/
def read_indices (strip_group_header : VTXFileStripGroupHeader)
    (strip_group_start_index : Nat) (vtx_data_bytes : List Nat) :
    DecodeM (List VTXFileIndex) :=
  (List.range strip_group_header.num_indices.toNat).mapM (fun index_num =>
    let index_start_index := strip_group_start_index
      + i32ToUsize strip_group_header.index_offset + index_num * sizeofVTXFileIndex
    copy_c_struct sizeofVTXFileIndex decodeVTXFileIndex index_start_index index_num
      vtx_data_bytes)

/-- Source `VTXDeserializer::read_strips` (same doubled-stride call shape). -/
def read_strips (strip_group_header : VTXFileStripGroupHeader)
    (strip_group_start_index : Nat) (vtx_data_bytes : List Nat) :
    DecodeM (List Strip) :=
  (List.range strip_group_header.num_strips.toNat).mapM (fun strip_num => do
    let strip_start_index := strip_group_start_index
      + i32ToUsize strip_group_header.strip_offset + strip_num * sizeofVTXFileStripHeader
    let strip ← copy_c_struct sizeofVTXFileStripHeader decodeVTXFileStripHeader
      strip_start_index strip_num vtx_data_bytes
    return { header := strip })

/-- Source `VTXDeserializer::read_strip_groups`: one `StripGroup` per
`0..num_strip_groups` (doubled-stride header read), with vertex, index
and strip arrays each read only when its count is positive and its offset
non-zero. -/
def read_strip_groups (mesh_header : VTXFileMeshHeader) (mesh_start_index : Nat)
    (vtx_data_bytes : List Nat) : DecodeM (List StripGroup) :=
  (List.range mesh_header.num_strip_groups.toNat).mapM (fun strip_group_num => do
    let strip_group_start_index := mesh_start_index
      + i32ToUsize mesh_header.strip_group_header_offset
      + strip_group_num * sizeofVTXFileStripGroupHeader
    let strip_group_header ← copy_c_struct sizeofVTXFileStripGroupHeader
      decodeVTXFileStripGroupHeader strip_group_start_index strip_group_num vtx_data_bytes
    let vertices ←
      if strip_group_header.num_verts > 0 ∧ strip_group_header.vert_offset ≠ 0 then
        read_vertices strip_group_header strip_group_start_index vtx_data_bytes
      else pure []
    let indices ←
      if strip_group_header.num_indices > 0 ∧ strip_group_header.index_offset ≠ 0 then
        read_indices strip_group_header strip_group_start_index vtx_data_bytes
      else pure []
    let strips ←
      if strip_group_header.num_strips > 0 ∧ strip_group_header.strip_offset ≠ 0 then
        read_strips strip_group_header strip_group_start_index vtx_data_bytes
      else pure []
    return { header := strip_group_header, vertices := vertices, indices := indices,
             strips := strips })

/-- Source `VTXDeserializer::read_meshes`.  The source loops `for mesh_num in 0..1`
(the `0..lod_header.num_meshes` loop is commented out, with the log line
"cheating and only loading 1 mesh"), so exactly one mesh header is read at
`lod_start_index + mesh_offset` regardless of `num_meshes`. -/
def read_meshes (lod_header : VTXFileModelLODHeader) (lod_start_index : Nat)
    (vtx_data_bytes : List Nat) : DecodeM (List Mesh) :=
  (List.range 1).mapM (fun mesh_num => do
    let mesh_start_index := lod_start_index + i32ToUsize lod_header.mesh_offset
      + mesh_num * sizeofVTXFileMeshHeader
    let mesh_header ← copy_c_struct sizeofVTXFileMeshHeader decodeVTXFileMeshHeader
      mesh_start_index mesh_num vtx_data_bytes
    let strip_groups ←
      if mesh_header.num_strip_groups > 0 ∧ mesh_header.strip_group_header_offset ≠ 0 then
        read_strip_groups mesh_header mesh_start_index vtx_data_bytes
      else pure []
    return { header := mesh_header, strip_groups := strip_groups })

/-- Source `VTXDeserializer::read_lods`: first all LOD headers are read (with the
doubled stride, since the start index already advances by 12 per LOD and
the macro adds `12 * lod_num` again), then `read_meshes` runs per LOD. -/
def read_lods (model_header : VTXFileModelHeader) (model_start_index : Nat)
    (vtx_data_bytes : List Nat) : DecodeM (List LOD) := do
  let lod_headers ← (List.range model_header.num_lods.toNat).mapM (fun lod_num => do
    let lod_start_index := model_start_index + i32ToUsize model_header.lod_offset
      + lod_num * sizeofVTXFileModelLODHeader
    let lod_header ← copy_c_struct sizeofVTXFileModelLODHeader decodeVTXFileModelLODHeader
      lod_start_index lod_num vtx_data_bytes
    return (lod_header, lod_start_index))
  lod_headers.mapM (fun p => do
    let meshes ← read_meshes p.1 p.2 vtx_data_bytes
    return { header := p.1, meshes := meshes })

/-- Source `VTXDeserializer::read_models`: model headers are read at
`bodypart_start + model_offset` with element index `model_num` (stride 8,
NOT doubled here — the macro receives the stride-free base), while the
recorded per-model start index advances by
`sizeof(VTXFileBodyPartHeader)` (also 8) per model. -/
def read_models (bodyparts_header : VTXFileBodyPartHeader) (bodypart_start_index : Nat)
    (vtx_data_bytes : List Nat) : DecodeM (List Model) := do
  let model_headers ← (List.range bodyparts_header.num_models.toNat).mapM (fun model_num => do
    let model_start_index := bodypart_start_index + i32ToUsize bodyparts_header.model_offset
      + model_num * sizeofVTXFileBodyPartHeader
    let model_header ← copy_c_struct sizeofVTXFileModelHeader decodeVTXFileModelHeader
      (bodypart_start_index + i32ToUsize bodyparts_header.model_offset) model_num
      vtx_data_bytes
    return (model_header, model_start_index))
  model_headers.mapM (fun p => do
    let lods ← read_lods p.1 p.2 vtx_data_bytes
    return { header := p.1, lods := lods })

/-- Source `VTXDeserializer::read_bodyparts`: body-part headers are read
consecutively (doubled stride again: the start index advances by 8 per
body part and the macro adds `8 * body_part_num` on top), then
`read_models` runs per body part. -/
def read_bodyparts (file_header : VTXFileHeader) (vtx_data_bytes : List Nat) :
    DecodeM (List BodyPart) := do
  let bodyparts_headers ← (List.range file_header.num_body_parts.toNat).mapM
    (fun body_part_num => do
      let bodypart_start_index := i32ToUsize file_header.body_part_offset
        + body_part_num * sizeofVTXFileBodyPartHeader
      let bodyparts_header ← copy_c_struct sizeofVTXFileBodyPartHeader
        decodeVTXFileBodyPartHeader bodypart_start_index body_part_num vtx_data_bytes
      return (bodyparts_header, bodypart_start_index))
  bodyparts_headers.mapM (fun p => do
    let models ← read_models p.1 p.2 vtx_data_bytes
    return { header := p.1, models := models })

/-- Source `VTXDeserializer::deserialize`, after the file has been read into
`vtx_data_bytes`: decode the 36-byte header (panicking if the buffer is
shorter), require `version == 7`, then read the body-part tree. -/
def read_vtx_file (vtx_data_bytes : List Nat) : DecodeM VTXFile :=
  match copy_c_struct sizeofVTXFileHeader decodeVTXFileHeader 0 0 vtx_data_bytes with
  | .error e => .error e
  | .ok header =>
    if header.version ≠ OPTIMIZED_MODEL_FILE_VERSION then
      .error (.vtxErr "VTX version not correct; expected 7")
    else
      match read_bodyparts header vtx_data_bytes with
      | .error e => .error e
      | .ok bodyparts => .ok { header := header, bodyparts := bodyparts }

/-! ## source_engine.rs : the aggregator -/

/-- Modelled from the spec: the `graphics::models::Vertex` record consumed
by the renderer.  Its declaring module is not under src/, but its single
construction site (`read_source_engine_model`) fixes its shape: one
`position` field holding a triple of `f32` components (carried here as bit
patterns, like every other `f32`). -/
structure Vertex where
  position : Nat × Nat × Nat
  deriving DecidableEq

/-- Source `SourceEngineModel`: the three decoded files plus the two projected
flat lists. -/
structure SourceEngineModel where
  mdl_file : MDLFile
  vtx_file : VTXFile
  vvd_file : VVDFile
  vertices : List Vertex
  normals : List Vertex
  deriving DecidableEq

/-- Source `read_source_engine_model`, with the three file reads replaced by the
three byte buffers the files would contain.  The three decoders run in
source order (mdl, vtx, vvd) with `?`-propagation, then the body-part
count check, then the checksum check, then the position/normal
projections. -/
def read_source_engine_model (name : String) (mdl_bytes vtx_bytes vvd_bytes : List Nat) :
    DecodeM SourceEngineModel :=
  match read_mdl_file mdl_bytes with
  | .error e => .error e
  | .ok mdl_file =>
  match read_vtx_file vtx_bytes with
  | .error e => .error e
  | .ok vtx_file =>
  match read_vvd_file vvd_bytes with
  | .error e => .error e
  | .ok vvd_file =>
  if i32ToUsize mdl_file.header.bodypart_count ≠ vtx_file.bodyparts.length then
    .error (.modelLoadErr (String.append "Unable to load Source engine model " name))
  else if mdl_file.header.checksum ≠ vvd_file.header.checksum
      ∨ vvd_file.header.checksum ≠ vtx_file.header.checksum then
    .error (.modelLoadErr "Model checksum mismatch")
  else
    .ok { mdl_file := mdl_file, vtx_file := vtx_file, vvd_file := vvd_file
          vertices := vvd_file.vertices.map (fun vertex =>
            { position := (vertex.vec_position.c0, vertex.vec_position.c1,
                vertex.vec_position.c2) })
          normals := vvd_file.vertices.map (fun vertex =>
            { position := (vertex.vec_normal.c0, vertex.vec_normal.c1,
                vertex.vec_normal.c2) }) }

deriving instance DecidableEq for Except

/-! ## Concrete input buffers used by the theorems below -/

/-- A 76-byte .dx90.vtx buffer: version 7, one body part at offset 36,
one model at relative offset 8, one LOD at relative offset 8 whose header
declares `num_meshes == 4` and `mesh_offset == 12`, and a single mesh
header (num_strip_groups 0) at the mesh array start. -/
def c1_vtx_buf : List Nat :=
  [7, 0, 0, 0] ++ List.replicate 24 0 ++ [1, 0, 0, 0] ++ [36, 0, 0, 0]
    ++ [1, 0, 0, 0] ++ [8, 0, 0, 0]
    ++ [1, 0, 0, 0] ++ [8, 0, 0, 0]
    ++ [4, 0, 0, 0] ++ [12, 0, 0, 0] ++ [0, 0, 0, 0]
    ++ [0, 0, 0, 0] ++ [0, 0, 0, 0] ++ [0, 0, 0, 0]

/-- Projection of a decoded mesh-topology tree to, per LOD, the declared
`num_meshes` next to the length of the decoded mesh list. -/
def lodMeshCounts (f : VTXFile) : List (List (List (Int × Nat))) :=
  f.bodyparts.map (fun bp => bp.models.map (fun m =>
    m.lods.map (fun l => (l.header.num_meshes, l.meshes.length))))

/-- A valid 400-byte .mdl buffer: "IDST" magic, checksum 0, all-NUL name
field (display name ""), bodypart_count 0. -/
def mdlOk_buf : List Nat := [73, 68, 83, 84] ++ List.replicate 396 0

/-- Like `mdlOk_buf` but with checksum 1 (byte 8). -/
def mdlCk1_buf : List Nat :=
  [73, 68, 83, 84] ++ [0, 0, 0, 0] ++ [1, 0, 0, 0] ++ List.replicate 388 0

/-- Like `mdlOk_buf` but with bodypart_count 1 (byte 232). -/
def mdlBp1_buf : List Nat :=
  [73, 68, 83, 84] ++ List.replicate 228 0 ++ [1, 0, 0, 0] ++ List.replicate 164 0

/-- A full-sized (400-byte) mdl buffer whose first four bytes are not the
"IDST" magic. -/
def mdlBad_buf : List Nat := List.replicate 400 0

/-- Like `mdlOk_buf` but with a name field containing no NUL byte at all
(all bytes 1). -/
def mdlNoNull_buf : List Nat := [73, 68, 83, 84] ++ List.replicate 396 1

/-- Like `mdlOk_buf` but with name field "ab\0...". -/
def mdlNameAb_buf : List Nat :=
  [73, 68, 83, 84] ++ [0, 0, 0, 0] ++ [0, 0, 0, 0] ++ [97, 98] ++ List.replicate 386 0

/-- A valid 36-byte .dx90.vtx buffer: version 7, checksum 0, zero body
parts. -/
def vtxOk_buf : List Nat := [7, 0, 0, 0] ++ List.replicate 32 0

/-- A full-sized (36-byte) vtx buffer whose version field is 0, not 7. -/
def vtxBad_buf : List Nat := List.replicate 36 0

/-- A valid 64-byte .vvd buffer: "IDSV" magic, checksum 0, no fixups,
`vertex_data_start == 64 > 0 == tangent_data_start`, so the vertex loop
never runs. -/
def vvdEmpty_buf : List Nat :=
  [73, 68, 83, 86] ++ List.replicate 52 0 ++ [64, 0, 0, 0] ++ List.replicate 4 0

/-- A valid 112-byte .vvd buffer: "IDSV" magic, no fixups,
`vertex_data_start == 64` and `tangent_data_start == 64`, followed by one
all-zero 48-byte vertex record. -/
def vvdOne_buf : List Nat :=
  [73, 68, 83, 86] ++ List.replicate 52 0 ++ [64, 0, 0, 0] ++ [64, 0, 0, 0]
    ++ List.replicate 48 0

/-- A 76-byte .vvd buffer declaring `num_fixups == 2`:
`fixup_table_start == 64`, `vertex_data_start == 76`,
`tangent_data_start == 0`, with one 12-byte fixup record in 64..76. -/
def vvdFix_buf : List Nat :=
  [73, 68, 83, 86] ++ List.replicate 44 0 ++ [2, 0, 0, 0] ++ [64, 0, 0, 0]
    ++ [76, 0, 0, 0] ++ [0, 0, 0, 0] ++ [1, 0, 0, 0] ++ [5, 0, 0, 0] ++ [7, 0, 0, 0]

/-- A full-sized (64-byte) vvd buffer whose first four bytes are not the
"IDSV" magic. -/
def vvdBad_buf : List Nat := List.replicate 64 0

/-! ## Evaluation helpers -/

/-- One unfolding of the vertex `while` loop when the loop condition
holds and the 48-byte read stays in bounds. -/
theorem read_vvd_vertices_step (d : List Nat) (vds tds i : Nat)
    (hc : vds + 48 * i ≤ tds) (hb : vds + 48 * i + 48 ≤ d.length) :
    read_vvd_vertices d vds tds i =
      (read_vvd_vertices d vds tds (i + 1)).map
        (fun rest => decodeVVDFileVertex d (vds + 48 * i) :: rest) := by
  rw [read_vvd_vertices]
  have h48 : sizeofVVDFileVertex = 48 := rfl
  simp only [h48, copy_c_struct]
  rw [dif_pos hc, if_pos (by omega)]
  norm_num

/-- The vertex `while` loop stops as soon as the start index passes
`tangent_data_start`. -/
theorem read_vvd_vertices_stop (d : List Nat) (vds tds i : Nat)
    (hc : ¬ vds + 48 * i ≤ tds) :
    read_vvd_vertices d vds tds i = .ok [] := by
  rw [read_vvd_vertices]
  have h48 : sizeofVVDFileVertex = 48 := rfl
  simp only [h48]
  rw [dif_neg hc]

/-- Source `read_vvd_file` on a buffer whose header decodes with the right magic
and whose fixup block succeeds reduces to the vertex loop. -/
theorem read_vvd_file_ok_of (d : List Nat) (verts : List VVDFileVertex)
    (hlen : 64 ≤ d.length)
    (hid : (decodeVVDFileHeader d 0).id = VVD_HEADER)
    (hfix : (if (decodeVVDFileHeader d 0).num_fixups > 0
        then read_vvd_fixups d (decodeVVDFileHeader d 0) else .ok ()) = .ok ())
    (hverts : read_vvd_vertices d (i32ToUsize (decodeVVDFileHeader d 0).vertex_data_start)
        (i32ToUsize (decodeVVDFileHeader d 0).tangent_data_start) 0 = .ok verts) :
    read_vvd_file d =
      .ok { header := decodeVVDFileHeader d 0, fixup_table := none, vertices := verts } := by
  unfold read_vvd_file
  have hcopy : copy_c_struct sizeofVVDFileHeader decodeVVDFileHeader 0 0 d
      = .ok (decodeVVDFileHeader d 0) := by
    simp only [copy_c_struct, sizeofVVDFileHeader]
    rw [if_pos (by omega)]
  rw [hcopy]
  simp only [hid, hfix, hverts, if_neg, ite_not, if_pos, ne_eq, not_true_eq_false, if_false,
    ite_false, ite_true]

/-- Length of the list produced by the vertex `while` loop from iteration
`i` on: one record per start index `vds + 48 * i <= tds` (the `fuel`
argument only drives the induction). -/
theorem read_vvd_vertices_length (d : List Nat) (vds tds : Nat) :
    ∀ (fuel i : Nat) (l : List VVDFileVertex), tds + 48 ≤ vds + 48 * i + fuel →
      read_vvd_vertices d vds tds i = .ok l →
      l.length = (if vds + 48 * i ≤ tds then (tds - (vds + 48 * i)) / 48 + 1 else 0) := by
  intro fuel
  induction fuel with
  | zero =>
    intro i l hf h
    rw [read_vvd_vertices_stop d vds tds i (by omega)] at h
    cases h
    simp only [List.length_nil]
    rw [if_neg (by omega)]
  | succ n ih =>
    intro i l hf h
    by_cases hc : vds + 48 * i ≤ tds
    · rw [read_vvd_vertices] at h
      have h48 : sizeofVVDFileVertex = 48 := rfl
      simp only [h48] at h
      rw [dif_pos hc] at h
      rcases hcpy : copy_c_struct 48 decodeVVDFileVertex (vds + 48 * i) 0 d with e | vtx
      · rw [hcpy] at h
        cases h
      · rw [hcpy] at h
        rcases hrec : read_vvd_vertices d vds tds (i + 1) with e | rest
        · rw [hrec] at h
          cases h
        · rw [hrec] at h
          simp only [Except.map] at h
          cases h
          have hlen := ih (i + 1) rest (by omega) hrec
          simp only [List.length_cons, hlen]
          by_cases hc1 : vds + 48 * (i + 1) ≤ tds
          · rw [if_pos hc1, if_pos hc]
            omega
          · rw [if_neg hc1, if_pos hc]
            omega
    · rw [read_vvd_vertices_stop d vds tds i hc] at h
      cases h
      simp only [List.length_nil]
      rw [if_neg hc]

/-- Evaluation: the vertex loop of `vvdOne_buf` reads exactly one record. -/
theorem vvdOne_vertices_eval :
    read_vvd_vertices vvdOne_buf 64 64 0 = .ok [decodeVVDFileVertex vvdOne_buf 64] := by
  rw [read_vvd_vertices_step vvdOne_buf 64 64 0 (by norm_num) (by decide)]
  rw [read_vvd_vertices_stop vvdOne_buf 64 64 1 (by norm_num)]
  norm_num [Except.map]

/-- The `VVDFile` that `vvdOne_buf` decodes to. -/
def vvdOneFile : VVDFile where
  header := decodeVVDFileHeader vvdOne_buf 0
  fixup_table := none
  vertices := [decodeVVDFileVertex vvdOne_buf 64]

/-- Evaluation: `vvdOne_buf` decodes to a one-vertex `VVDFile`. -/
theorem vvdOne_eval : read_vvd_file vvdOne_buf = .ok vvdOneFile := by
  apply read_vvd_file_ok_of
  · decide
  · decide
  · decide
  · have h1 : i32ToUsize (decodeVVDFileHeader vvdOne_buf 0).vertex_data_start = 64 := by decide
    have h2 : i32ToUsize (decodeVVDFileHeader vvdOne_buf 0).tangent_data_start = 64 := by decide
    rw [h1, h2]
    exact vvdOne_vertices_eval

/-- The `VVDFile` that `vvdEmpty_buf` decodes to. -/
def vvdEmptyFile : VVDFile where
  header := decodeVVDFileHeader vvdEmpty_buf 0
  fixup_table := none
  vertices := []

/-- Evaluation: `vvdEmpty_buf` decodes to a zero-vertex `VVDFile`. -/
theorem vvdEmpty_eval : read_vvd_file vvdEmpty_buf = .ok vvdEmptyFile := by
  apply read_vvd_file_ok_of
  · decide
  · decide
  · decide
  · have h1 : i32ToUsize (decodeVVDFileHeader vvdEmpty_buf 0).vertex_data_start = 64 := by decide
    have h2 : i32ToUsize (decodeVVDFileHeader vvdEmpty_buf 0).tangent_data_start = 0 := by decide
    rw [h1, h2]
    exact read_vvd_vertices_stop vvdEmpty_buf 64 0 0 (by norm_num)

/-- The `VVDFile` that `vvdFix_buf` (which declares two fixups) decodes
to: the fixup table is read but the result still carries `none`. -/
def vvdFixFile : VVDFile where
  header := decodeVVDFileHeader vvdFix_buf 0
  fixup_table := none
  vertices := []

/-- Evaluation: `vvdFix_buf` decodes successfully; its single-entry fixup
read and the `assert!` both pass, and the vertex loop never runs. -/
theorem vvdFix_eval : read_vvd_file vvdFix_buf = .ok vvdFixFile := by
  apply read_vvd_file_ok_of
  · decide
  · decide
  · decide
  · have h1 : i32ToUsize (decodeVVDFileHeader vvdFix_buf 0).vertex_data_start = 76 := by decide
    have h2 : i32ToUsize (decodeVVDFileHeader vvdFix_buf 0).tangent_data_start = 0 := by decide
    rw [h1, h2]
    exact read_vvd_vertices_stop vvdFix_buf 76 0 0 (by norm_num)

/-! ## Claims -/

/-- Claim C1: the spec (and the repo's own vtxreader test) says one `Mesh`
is decoded per `m` in `0..lod.num_meshes`, so `lod.header.num_meshes`
equals `lod.meshes.len()`.  The code instead hardcodes the mesh loop to
`0..1`, so on a topology buffer whose single LOD declares `num_meshes == 4`
the decode succeeds with exactly ONE mesh in the list: the declared count
does not equal the produced collection's length. -/
theorem read_meshes_decodes_one_mesh_only :
    (read_vtx_file c1_vtx_buf).toOption.map lodMeshCounts = some [[[(4, 1)]]] := by decide

/-- Claim C2 (counterexample): the claim says the number of decoded vertex
records equals `(tangent_data_start - vertex_data_start) / sizeof(Vertex)`
exactly; on a valid buffer with `vertex_data_start == tangent_data_start
== 64` that quotient is 0, yet the decode succeeds with 1 vertex record
(the loop condition is `<=`, so the record starting exactly at
`tangent_data_start` is still read). -/
theorem vvd_vertex_count_claim_false :
    (read_vvd_file vvdOne_buf).toOption.map (fun f => f.vertices.length) = some 1
    ∧ (i32ToUsize (decodeVVDFileHeader vvdOne_buf 0).tangent_data_start
        - i32ToUsize (decodeVVDFileHeader vvdOne_buf 0).vertex_data_start)
        / sizeofVVDFileVertex = 0 := by
  constructor
  · rw [vvdOne_eval]
    rfl
  · decide

/-- Claim C2 (amended): for every successfully decoded vertex-data buffer,
the flat vertex array has
`(tangent_data_start - vertex_data_start) / sizeof(Vertex) + 1` records
when `vertex_data_start <= tangent_data_start` (one extra record relative
to the claim, read at `tangent_data_start` itself), and 0 records
otherwise. -/
theorem vvd_vertex_count (d : List Nat) (f : VVDFile)
    (h : read_vvd_file d = .ok f) :
    f.vertices.length =
      (if i32ToUsize f.header.vertex_data_start ≤ i32ToUsize f.header.tangent_data_start
       then (i32ToUsize f.header.tangent_data_start - i32ToUsize f.header.vertex_data_start)
          / sizeofVVDFileVertex + 1
       else 0) := by
  unfold read_vvd_file at h
  rcases hcopy : copy_c_struct sizeofVVDFileHeader decodeVVDFileHeader 0 0 d with e | hdr
  · rw [hcopy] at h
    cases h
  · rw [hcopy] at h
    dsimp only at h
    by_cases hid : hdr.id ≠ VVD_HEADER
    · rw [if_pos hid] at h
      cases h
    · rw [if_neg hid] at h
      rcases hfix : (if hdr.num_fixups > 0 then read_vvd_fixups d hdr else .ok ()) with e | u
      · rw [hfix] at h
        cases h
      · rw [hfix] at h
        rcases hverts : read_vvd_vertices d (i32ToUsize hdr.vertex_data_start)
            (i32ToUsize hdr.tangent_data_start) 0 with e | verts
        · rw [hverts] at h
          cases h
        · rw [hverts] at h
          cases h
          have hlen := read_vvd_vertices_length d (i32ToUsize hdr.vertex_data_start)
            (i32ToUsize hdr.tangent_data_start) (i32ToUsize hdr.tangent_data_start + 48) 0
            verts (by omega) hverts
          have h48 : sizeofVVDFileVertex = 48 := rfl
          simpa [h48] using hlen

/-- Claim C2 (amended, witness): on `vvdOne_buf` the decode succeeds and
the vertex count is `(64 - 64) / 48 + 1 = 1`. -/
theorem vvd_vertex_count_witness :
    read_vvd_file vvdOne_buf = .ok vvdOneFile
    ∧ vvdOneFile.vertices.length =
      (if i32ToUsize vvdOneFile.header.vertex_data_start
          ≤ i32ToUsize vvdOneFile.header.tangent_data_start
       then (i32ToUsize vvdOneFile.header.tangent_data_start
          - i32ToUsize vvdOneFile.header.vertex_data_start) / sizeofVVDFileVertex + 1
       else 0) :=
  ⟨vvdOne_eval, vvd_vertex_count vvdOne_buf vvdOneFile vvdOne_eval⟩

/-- Claim C3: the claim says an out-of-range record region yields a
`TruncatedBuffer` error value and never a panic or out-of-bounds read.
The code has no such error: on a truncated buffer the vvd and vtx readers
panic at the `copy_c_struct!` slice index, and the mdl reader performs an
unchecked out-of-bounds pointer read (no bounds check exists at all). -/
theorem truncated_buffer_panics :
    read_vvd_file [] = .error (.rustPanic "slice index out of range")
    ∧ read_vtx_file [] = .error (.rustPanic "slice index out of range")
    ∧ read_mdl_file [] = .error (.undefinedBehavior "mdl header read past end of buffer") := by
  refine ⟨?_, by decide, by decide⟩
  unfold read_vvd_file
  decide

/-- Claim C4 (counterexample): the claim says that for `num_fixups > 0`
the decoder decodes `num_fixups` fixup entries and the returned value
carries the decoded table in its fixups field.  On a valid buffer with
`num_fixups == 2` the decode succeeds but the returned `VVDFile` carries
`fixup_table == none`. -/
theorem vvd_fixups_not_carried :
    (read_vvd_file vvdFix_buf).toOption.map
      (fun f => (f.header.num_fixups, f.fixup_table)) = some (2, none) := by
  rw [vvdFix_eval]
  rfl

/-- Claim C4 (amended): when `num_fixups > 0` the decoder reads a single
`FixupEntry` at `fixup_table_start` (not `num_fixups` of them) and
discards it; the returned `VVDFile`'s fixup field is always `none`. -/
theorem vvd_fixup_table_always_none (d : List Nat) (f : VVDFile)
    (h : read_vvd_file d = .ok f) : f.fixup_table = none := by
  unfold read_vvd_file at h
  rcases hcopy : copy_c_struct sizeofVVDFileHeader decodeVVDFileHeader 0 0 d with e | hdr
  · rw [hcopy] at h
    cases h
  · rw [hcopy] at h
    dsimp only at h
    by_cases hid : hdr.id ≠ VVD_HEADER
    · rw [if_pos hid] at h
      cases h
    · rw [if_neg hid] at h
      rcases hfix : (if hdr.num_fixups > 0 then read_vvd_fixups d hdr else .ok ()) with e | u
      · rw [hfix] at h
        cases h
      · rw [hfix] at h
        rcases hverts : read_vvd_vertices d (i32ToUsize hdr.vertex_data_start)
            (i32ToUsize hdr.tangent_data_start) 0 with e | verts
        · rw [hverts] at h
          cases h
        · rw [hverts] at h
          cases h
          rfl

/-- Claim C4 (amended, witness): on `vvdFix_buf` (`num_fixups == 2`) the
decode succeeds and the carried fixup table is `none`. -/
theorem vvd_fixup_table_always_none_witness :
    read_vvd_file vvdFix_buf = .ok vvdFixFile ∧ vvdFixFile.fixup_table = none :=
  ⟨vvdFix_eval, vvd_fixup_table_always_none vvdFix_buf vvdFixFile vvdFix_eval⟩

/-! ## Aggregator evaluation helpers -/

/-- The `MDLFile` that `mdlOk_buf` decodes to (empty display name). -/
def mdlOkFile : MDLFile where
  header := decodeMDLFileHeader mdlOk_buf 0
  name := []

theorem mdlOk_eval : read_mdl_file mdlOk_buf = .ok mdlOkFile := by decide

/-- The `MDLFile` that `mdlBp1_buf` (`bodypart_count == 1`) decodes to. -/
def mdlBp1File : MDLFile where
  header := decodeMDLFileHeader mdlBp1_buf 0
  name := []

theorem mdlBp1_eval : read_mdl_file mdlBp1_buf = .ok mdlBp1File := by decide

/-- The `MDLFile` that `mdlCk1_buf` (`checksum == 1`) decodes to. -/
def mdlCk1File : MDLFile where
  header := decodeMDLFileHeader mdlCk1_buf 0
  name := []

theorem mdlCk1_eval : read_mdl_file mdlCk1_buf = .ok mdlCk1File := by decide

/-- The `VTXFile` that `vtxOk_buf` (zero body parts) decodes to. -/
def vtxOkFile : VTXFile where
  header := decodeVTXFileHeader vtxOk_buf 0
  bodyparts := []

theorem vtxOk_eval : read_vtx_file vtxOk_buf = .ok vtxOkFile := by decide

/-- The `SourceEngineModel` produced by loading the consistent triple
(`mdlOk_buf`, `vtxOk_buf`, `vvdOne_buf`): all three checksums are 0 and
the single all-zero vertex projects to position and normal `(0,0,0)`. -/
def loadOneModel : SourceEngineModel where
  mdl_file := mdlOkFile
  vtx_file := vtxOkFile
  vvd_file := vvdOneFile
  vertices := [{ position := (0, 0, 0) }]
  normals := [{ position := (0, 0, 0) }]

theorem loadOne_eval :
    read_source_engine_model "sas" mdlOk_buf vtxOk_buf vvdOne_buf = .ok loadOneModel := by
  unfold read_source_engine_model
  rw [mdlOk_eval]
  dsimp only
  rw [vtxOk_eval]
  dsimp only
  rw [vvdOne_eval]
  dsimp only
  decide

theorem loadBp1_eval :
    read_source_engine_model "x" mdlBp1_buf vtxOk_buf vvdOne_buf =
      .error (.modelLoadErr (String.append "Unable to load Source engine model " "x")) := by
  unfold read_source_engine_model
  rw [mdlBp1_eval]
  dsimp only
  rw [vtxOk_eval]
  dsimp only
  rw [vvdOne_eval]
  dsimp only
  decide

theorem loadCk1_eval :
    read_source_engine_model "x" mdlCk1_buf vtxOk_buf vvdOne_buf =
      .error (.modelLoadErr "Model checksum mismatch") := by
  unfold read_source_engine_model
  rw [mdlCk1_eval]
  dsimp only
  rw [vtxOk_eval]
  dsimp only
  rw [vvdOne_eval]
  dsimp only
  decide

/-- Claim C5: when the three sub-decoders succeed and the body-part counts
match, `load_model` succeeds iff the three decoded checksums are all
equal; on success the returned model's three sub-checksums are pairwise
equal; a checksum mismatch always yields the hard
"Model checksum mismatch" failure, never a loaded model. -/
theorem load_model_checksum_gate (name : String) (mdlB vtxB vvdB : List Nat)
    (m : MDLFile) (v : VTXFile) (w : VVDFile)
    (hm : read_mdl_file mdlB = .ok m) (hv : read_vtx_file vtxB = .ok v)
    (hw : read_vvd_file vvdB = .ok w)
    (hcount : i32ToUsize m.header.bodypart_count = v.bodyparts.length) :
    ((∃ sm, read_source_engine_model name mdlB vtxB vvdB = .ok sm)
      ↔ (m.header.checksum = w.header.checksum ∧ w.header.checksum = v.header.checksum))
    ∧ (∀ sm, read_source_engine_model name mdlB vtxB vvdB = .ok sm →
        sm.mdl_file.header.checksum = sm.vvd_file.header.checksum
        ∧ sm.vvd_file.header.checksum = sm.vtx_file.header.checksum
        ∧ sm.mdl_file.header.checksum = sm.vtx_file.header.checksum)
    ∧ (¬(m.header.checksum = w.header.checksum ∧ w.header.checksum = v.header.checksum) →
        read_source_engine_model name mdlB vtxB vvdB =
          .error (.modelLoadErr "Model checksum mismatch")) := by
  have hload : read_source_engine_model name mdlB vtxB vvdB =
      (if m.header.checksum ≠ w.header.checksum ∨ w.header.checksum ≠ v.header.checksum then
        .error (.modelLoadErr "Model checksum mismatch")
      else .ok { mdl_file := m, vtx_file := v, vvd_file := w
                 vertices := w.vertices.map (fun vertex =>
                   { position := (vertex.vec_position.c0, vertex.vec_position.c1,
                       vertex.vec_position.c2) })
                 normals := w.vertices.map (fun vertex =>
                   { position := (vertex.vec_normal.c0, vertex.vec_normal.c1,
                       vertex.vec_normal.c2) }) }) := by
    unfold read_source_engine_model
    rw [hm]
    dsimp only
    rw [hv]
    dsimp only
    rw [hw]
    dsimp only
    rw [if_neg (by simp [hcount])]
  by_cases hck : m.header.checksum ≠ w.header.checksum ∨ w.header.checksum ≠ v.header.checksum
  · rw [if_pos hck] at hload
    refine ⟨⟨fun hex => ?_, fun hc => ?_⟩, fun sm hsm => ?_, fun _ => hload⟩
    · obtain ⟨sm, hsm⟩ := hex
      rw [hload] at hsm
      cases hsm
    · rcases hck with h | h
      · exact absurd hc.1 h
      · exact absurd hc.2 h
    · rw [hload] at hsm
      cases hsm
  · rw [if_neg hck] at hload
    push_neg at hck
    refine ⟨⟨fun _ => ⟨hck.1, hck.2⟩, fun _ => ⟨_, hload⟩⟩, fun sm hsm => ?_,
      fun hcon => absurd ⟨hck.1, hck.2⟩ hcon⟩
    rw [hload] at hsm
    injection hsm with h
    rw [← h]
    exact ⟨hck.1, hck.2, hck.1.trans hck.2⟩

/-- Claim C5 (witness): the consistent triple (`mdlOk_buf`, `vtxOk_buf`,
`vvdOne_buf`) has all checksums 0, matching body-part counts, and loads
successfully. -/
theorem load_model_checksum_gate_witness :
    read_mdl_file mdlOk_buf = .ok mdlOkFile
    ∧ read_vtx_file vtxOk_buf = .ok vtxOkFile
    ∧ read_vvd_file vvdOne_buf = .ok vvdOneFile
    ∧ i32ToUsize mdlOkFile.header.bodypart_count = vtxOkFile.bodyparts.length
    ∧ ((∃ sm, read_source_engine_model "sas" mdlOk_buf vtxOk_buf vvdOne_buf = .ok sm)
        ↔ (mdlOkFile.header.checksum = vvdOneFile.header.checksum
            ∧ vvdOneFile.header.checksum = vtxOkFile.header.checksum)) :=
  ⟨mdlOk_eval, vtxOk_eval, vvdOne_eval, by decide,
    (load_model_checksum_gate "sas" mdlOk_buf vtxOk_buf vvdOne_buf mdlOkFile vtxOkFile
      vvdOneFile mdlOk_eval vtxOk_eval vvdOne_eval (by decide)).1⟩

/-- Claim C6: `load_model` reports the first failure in the fixed order:
any error from a sub-decoder (mdl, then vtx, then vvd) is returned as-is
first; otherwise a body-part-count mismatch is reported (before any
checksum comparison: no checksum hypothesis appears in that conjunct);
only then is a checksum mismatch reported. -/
theorem load_model_error_order (name : String) (mdlB vtxB vvdB : List Nat) :
    (∀ e, read_mdl_file mdlB = .error e →
      read_source_engine_model name mdlB vtxB vvdB = .error e)
    ∧ (∀ e m, read_mdl_file mdlB = .ok m → read_vtx_file vtxB = .error e →
      read_source_engine_model name mdlB vtxB vvdB = .error e)
    ∧ (∀ e m v, read_mdl_file mdlB = .ok m → read_vtx_file vtxB = .ok v →
      read_vvd_file vvdB = .error e →
      read_source_engine_model name mdlB vtxB vvdB = .error e)
    ∧ (∀ m v w, read_mdl_file mdlB = .ok m → read_vtx_file vtxB = .ok v →
      read_vvd_file vvdB = .ok w →
      i32ToUsize m.header.bodypart_count ≠ v.bodyparts.length →
      read_source_engine_model name mdlB vtxB vvdB =
        .error (.modelLoadErr (String.append "Unable to load Source engine model " name)))
    ∧ (∀ m v w, read_mdl_file mdlB = .ok m → read_vtx_file vtxB = .ok v →
      read_vvd_file vvdB = .ok w →
      i32ToUsize m.header.bodypart_count = v.bodyparts.length →
      (m.header.checksum ≠ w.header.checksum ∨ w.header.checksum ≠ v.header.checksum) →
      read_source_engine_model name mdlB vtxB vvdB =
        .error (.modelLoadErr "Model checksum mismatch")) := by
  refine ⟨?_, ?_, ?_, ?_, ?_⟩
  · intro e he
    unfold read_source_engine_model
    rw [he]
  · intro e m hm he
    unfold read_source_engine_model
    rw [hm]
    dsimp only
    rw [he]
  · intro e m v hm hv he
    unfold read_source_engine_model
    rw [hm]
    dsimp only
    rw [hv]
    dsimp only
    rw [he]
  · intro m v w hm hv hw hne
    unfold read_source_engine_model
    rw [hm]
    dsimp only
    rw [hv]
    dsimp only
    rw [hw]
    dsimp only
    rw [if_pos hne]
  · intro m v w hm hv hw heq hck
    unfold read_source_engine_model
    rw [hm]
    dsimp only
    rw [hv]
    dsimp only
    rw [hw]
    dsimp only
    rw [if_neg (by simp [heq]), if_pos hck]

/-- Claim C6 (witness): the five orderings observed on concrete triples:
a bad mdl magic wins over everything, a bad vtx version wins once the mdl
decoded, a bad vvd magic wins once mdl and vtx decoded, a body-part-count
mismatch is reported when all three decode, and a checksum mismatch is
reported when additionally the counts match. -/
theorem load_model_error_order_witness :
    read_source_engine_model "x" mdlBad_buf vtxOk_buf vvdOne_buf
      = .error (.mdlErr "mdl header not correct; expected [0x49, 0x44, 0x53, 0x54]")
    ∧ read_source_engine_model "x" mdlOk_buf vtxBad_buf vvdOne_buf
      = .error (.vtxErr "VTX version not correct; expected 7")
    ∧ read_source_engine_model "x" mdlOk_buf vtxOk_buf vvdBad_buf
      = .error (.vvdErr "vvd header not correct; expected [0x49, 0x44, 0x53, 0x56]")
    ∧ read_source_engine_model "x" mdlBp1_buf vtxOk_buf vvdOne_buf
      = .error (.modelLoadErr (String.append "Unable to load Source engine model " "x"))
    ∧ read_source_engine_model "x" mdlCk1_buf vtxOk_buf vvdOne_buf
      = .error (.modelLoadErr "Model checksum mismatch") :=
  ⟨(load_model_error_order "x" mdlBad_buf vtxOk_buf vvdOne_buf).1 _ (by decide),
    (load_model_error_order "x" mdlOk_buf vtxBad_buf vvdOne_buf).2.1 _ mdlOkFile
      mdlOk_eval (by decide),
    (load_model_error_order "x" mdlOk_buf vtxOk_buf vvdBad_buf).2.2.1 _ mdlOkFile vtxOkFile
      mdlOk_eval vtxOk_eval (by decide),
    (load_model_error_order "x" mdlBp1_buf vtxOk_buf vvdOne_buf).2.2.2.1 mdlBp1File
      vtxOkFile vvdOneFile mdlBp1_eval vtxOk_eval vvdOne_eval (by decide),
    (load_model_error_order "x" mdlCk1_buf vtxOk_buf vvdOne_buf).2.2.2.2 mdlCk1File
      vtxOkFile vvdOneFile mdlCk1_eval vtxOk_eval vvdOne_eval (by decide) (by decide)⟩

/-- Claim C7: for each of the three file kinds, a full-sized buffer whose
first four bytes are corrupted (studio magic not "IDST", mesh-topology
version not 7, vertex-data magic not "IDSV") makes `load_model` fail with
the corresponding bad-magic / unsupported-version error value — not a
panic and not an out-of-bounds read. -/
theorem corrupt_magic_fails_cleanly (name : String) (mdlB vtxB vvdB : List Nat) :
    (400 ≤ mdlB.length → i32At mdlB 0 ≠ MDL_HEADER →
      read_source_engine_model name mdlB vtxB vvdB =
        .error (.mdlErr "mdl header not correct; expected [0x49, 0x44, 0x53, 0x54]"))
    ∧ (∀ m, read_mdl_file mdlB = .ok m → 36 ≤ vtxB.length →
      i32At vtxB 0 ≠ OPTIMIZED_MODEL_FILE_VERSION →
      read_source_engine_model name mdlB vtxB vvdB =
        .error (.vtxErr "VTX version not correct; expected 7"))
    ∧ (∀ m v, read_mdl_file mdlB = .ok m → read_vtx_file vtxB = .ok v →
      64 ≤ vvdB.length → i32At vvdB 0 ≠ VVD_HEADER →
      read_source_engine_model name mdlB vtxB vvdB =
        .error (.vvdErr "vvd header not correct; expected [0x49, 0x44, 0x53, 0x56]")) := by
  refine ⟨?_, ?_, ?_⟩
  · intro hlen hmag
    have hmdl : read_mdl_file mdlB =
        .error (.mdlErr "mdl header not correct; expected [0x49, 0x44, 0x53, 0x54]") := by
      unfold read_mdl_file
      rw [if_neg (by simp only [sizeofMDLFileHeader]; omega)]
      rw [if_pos (show (decodeMDLFileHeader mdlB 0).id ≠ MDL_HEADER from hmag)]
    unfold read_source_engine_model
    rw [hmdl]
  · intro m hm hlen hmag
    have hvtx : read_vtx_file vtxB =
        .error (.vtxErr "VTX version not correct; expected 7") := by
      unfold read_vtx_file
      have hcopy : copy_c_struct sizeofVTXFileHeader decodeVTXFileHeader 0 0 vtxB =
          .ok (decodeVTXFileHeader vtxB 0) := by
        simp only [copy_c_struct, sizeofVTXFileHeader]
        rw [if_pos (by omega)]
      rw [hcopy]
      dsimp only
      rw [if_pos
        (show (decodeVTXFileHeader vtxB 0).version ≠ OPTIMIZED_MODEL_FILE_VERSION from hmag)]
    unfold read_source_engine_model
    rw [hm]
    dsimp only
    rw [hvtx]
  · intro m v hm hv hlen hmag
    have hvvd : read_vvd_file vvdB =
        .error (.vvdErr "vvd header not correct; expected [0x49, 0x44, 0x53, 0x56]") := by
      unfold read_vvd_file
      have hcopy : copy_c_struct sizeofVVDFileHeader decodeVVDFileHeader 0 0 vvdB =
          .ok (decodeVVDFileHeader vvdB 0) := by
        simp only [copy_c_struct, sizeofVVDFileHeader]
        rw [if_pos (by omega)]
      rw [hcopy]
      dsimp only
      rw [if_pos (show (decodeVVDFileHeader vvdB 0).id ≠ VVD_HEADER from hmag)]
    unfold read_source_engine_model
    rw [hm]
    dsimp only
    rw [hv]
    dsimp only
    rw [hvvd]

/-- Claim C7 (witness): three concrete full-sized buffers with corrupted
leading four bytes, each failing with its reader's magic/version error. -/
theorem corrupt_magic_fails_cleanly_witness :
    read_source_engine_model "w" mdlBad_buf vtxOk_buf vvdOne_buf
      = .error (.mdlErr "mdl header not correct; expected [0x49, 0x44, 0x53, 0x54]")
    ∧ read_source_engine_model "w" mdlOk_buf vtxBad_buf vvdOne_buf
      = .error (.vtxErr "VTX version not correct; expected 7")
    ∧ read_source_engine_model "w" mdlOk_buf vtxOk_buf vvdBad_buf
      = .error (.vvdErr "vvd header not correct; expected [0x49, 0x44, 0x53, 0x56]") :=
  ⟨(corrupt_magic_fails_cleanly "w" mdlBad_buf vtxOk_buf vvdOne_buf).1
      (by decide) (by decide),
    (corrupt_magic_fails_cleanly "w" mdlOk_buf vtxBad_buf vvdOne_buf).2.1 mdlOkFile
      mdlOk_eval (by decide) (by decide),
    (corrupt_magic_fails_cleanly "w" mdlOk_buf vtxOk_buf vvdBad_buf).2.2 mdlOkFile
      vtxOkFile mdlOk_eval vtxOk_eval (by decide) (by decide)⟩

/-- The prefix up to the first index where the scan predicate holds is
exactly the `takeWhile` of its negation (bridging the `position`-based
scan in the Rust code with the "bytes preceding the first null byte"
phrasing of the spec). -/
theorem take_findIdx?_eq_takeWhile (l : List Nat) :
    ∀ j, l.findIdx? (fun r => r = 0) = some j →
      l.take j = l.takeWhile (fun b => b ≠ 0) := by
  induction l with
  | nil =>
    intro j h
    rw [List.findIdx?_nil] at h
    cases h
  | cons b rest ih =>
    intro j h
    rw [List.findIdx?_cons] at h
    by_cases hb : b = 0
    · rw [if_pos (by simp [hb])] at h
      injection h with h
      rw [← h]
      simp [List.takeWhile_cons, hb]
    · rw [if_neg (by simp [hb])] at h
      rw [List.findIdx?_succ] at h
      rcases hr : rest.findIdx? (fun r => r = 0) with _ | j0
      · rw [hr] at h
        cases h
      · rw [hr] at h
        simp only [Option.map] at h
        injection h with h
        rw [← h]
        simp only [List.take_succ_cons, List.takeWhile_cons]
        rw [if_pos (by simp [hb])]
        rw [ih j0 hr]

/-- Claim C8: for every mdl buffer that passes the magic check and whose
64-byte name field contains a null byte, the decode returns the UTF-8
decoding of the bytes preceding the first null byte as the display name,
or fails with the invalid-text error when those bytes are not valid
UTF-8. -/
theorem mdl_display_name_extraction (d : List Nat)
    (hlen : sizeofMDLFileHeader ≤ d.length)
    (hmagic : i32At d 0 = MDL_HEADER)
    (hnull : ∃ b ∈ mdlNameField d, b = 0) :
    read_mdl_file d =
      (match utf8Decode ((mdlNameField d).takeWhile (fun b => b ≠ 0)) with
       | none => .error (.mdlErr "Error converting name to string")
       | some cs => .ok { header := decodeMDLFileHeader d 0, name := cs }) := by
  unfold read_mdl_file
  rw [if_neg (by simp only [sizeofMDLFileHeader] at *; omega)]
  dsimp only
  rw [if_neg (show ¬((decodeMDLFileHeader d 0).id ≠ MDL_HEADER) from fun hc => hc hmagic)]
  simp only [mdlNameField] at hnull ⊢
  rcases hf : (decodeMDLFileHeader d 0).name.findIdx? (fun r => r = 0) with _ | j
  · obtain ⟨b, hb, hb0⟩ := hnull
    have := List.findIdx?_eq_none_iff.mp hf b hb
    simp [hb0] at this
  · rw [hf]
    dsimp only
    rw [take_findIdx?_eq_takeWhile ((decodeMDLFileHeader d 0).name) j hf]

/-- Claim C8 (witness): a concrete mdl buffer whose name field is
"ab" followed by nulls decodes with display name "ab" (code points
[97, 98]). -/
theorem mdl_display_name_extraction_witness :
    read_mdl_file mdlNameAb_buf =
      .ok { header := decodeMDLFileHeader mdlNameAb_buf 0, name := [97, 98] } := by
  have h := mdl_display_name_extraction mdlNameAb_buf (by decide) (by decide) (by decide)
  rw [h]
  decide

/-- Claim C9: if an mdl buffer passes the magic check but its 64-byte name
field contains no null byte at all, the decoder panics (the
`Option::unwrap` on the result of the null scan) instead of returning an
error value. -/
theorem mdl_name_without_null_panics (d : List Nat)
    (hlen : sizeofMDLFileHeader ≤ d.length)
    (hmagic : i32At d 0 = MDL_HEADER)
    (hnonull : ∀ b ∈ mdlNameField d, b ≠ 0) :
    read_mdl_file d = .error (.rustPanic "called Option.unwrap on a None value") := by
  unfold read_mdl_file
  rw [if_neg (by simp only [sizeofMDLFileHeader] at *; omega)]
  dsimp only
  rw [if_neg (show ¬((decodeMDLFileHeader d 0).id ≠ MDL_HEADER) from fun hc => hc hmagic)]
  simp only [mdlNameField] at hnonull
  have hf : (decodeMDLFileHeader d 0).name.findIdx? (fun r => r = 0) = none := by
    rw [List.findIdx?_eq_none_iff]
    intro x hx
    simpa using hnonull x hx
  rw [hf]

/-- Claim C9 (witness): a full-sized mdl buffer with correct magic whose
name field is all 1-bytes makes the decode end in the unwrap panic. -/
theorem mdl_name_without_null_panics_witness :
    read_mdl_file mdlNoNull_buf =
      .error (.rustPanic "called Option.unwrap on a None value") :=
  mdl_name_without_null_panics mdlNoNull_buf (by decide) (by decide) (by decide)

/-- Claim C10: on every successful `load_model` the projected position and
normal lists each have the same length as the decoded flat vertex array,
and element-wise carry exactly the `vec_position` (resp. `vec_normal`)
triple of the corresponding vertex. -/
theorem projection_lists_match_vertices (name : String) (mdlB vtxB vvdB : List Nat)
    (sm : SourceEngineModel)
    (h : read_source_engine_model name mdlB vtxB vvdB = .ok sm) :
    sm.vertices.length = sm.vvd_file.vertices.length
    ∧ sm.normals.length = sm.vvd_file.vertices.length
    ∧ ∀ (i : Nat), sm.vertices[i]? = (sm.vvd_file.vertices[i]?).map (fun (vertex : VVDFileVertex) =>
        ({ position := (vertex.vec_position.c0, vertex.vec_position.c1,
            vertex.vec_position.c2) } : Vertex))
      ∧ sm.normals[i]? = (sm.vvd_file.vertices[i]?).map (fun (vertex : VVDFileVertex) =>
        ({ position := (vertex.vec_normal.c0, vertex.vec_normal.c1,
            vertex.vec_normal.c2) } : Vertex)) := by
  unfold read_source_engine_model at h
  rcases hm : read_mdl_file mdlB with e | m
  · rw [hm] at h
    cases h
  · rw [hm] at h
    dsimp only at h
    rcases hv : read_vtx_file vtxB with e | v
    · rw [hv] at h
      cases h
    · rw [hv] at h
      dsimp only at h
      rcases hw : read_vvd_file vvdB with e | w
      · rw [hw] at h
        cases h
      · rw [hw] at h
        dsimp only at h
        by_cases hcount : i32ToUsize m.header.bodypart_count ≠ v.bodyparts.length
        · rw [if_pos hcount] at h
          cases h
        · rw [if_neg hcount] at h
          by_cases hck : m.header.checksum ≠ w.header.checksum
              ∨ w.header.checksum ≠ v.header.checksum
          · rw [if_pos hck] at h
            cases h
          · rw [if_neg hck] at h
            cases h
            refine ⟨by simp, by simp, fun i => ⟨?_, ?_⟩⟩
            · simp [List.getElem?_map]
            · simp [List.getElem?_map]

/-- Claim C10 (witness): on the loaded `loadOneModel` both projected lists
have length 1 and their first elements are the position resp. normal
triple of the single decoded vertex. -/
theorem projection_lists_match_vertices_witness :
    loadOneModel.vertices.length = loadOneModel.vvd_file.vertices.length
    ∧ loadOneModel.normals.length = loadOneModel.vvd_file.vertices.length
    ∧ loadOneModel.vertices[(0 : Nat)]? = (loadOneModel.vvd_file.vertices[(0 : Nat)]?).map (fun (vertex : VVDFileVertex) =>
        ({ position := (vertex.vec_position.c0, vertex.vec_position.c1,
            vertex.vec_position.c2) } : Vertex))
    ∧ loadOneModel.normals[(0 : Nat)]? = (loadOneModel.vvd_file.vertices[(0 : Nat)]?).map (fun (vertex : VVDFileVertex) =>
        ({ position := (vertex.vec_normal.c0, vertex.vec_normal.c1,
            vertex.vec_normal.c2) } : Vertex)) :=
  have h := projection_lists_match_vertices "sas" mdlOk_buf vtxOk_buf vvdOne_buf
    loadOneModel loadOne_eval
  ⟨h.1, h.2.1, (h.2.2 0).1, (h.2.2 0).2⟩

end RTD
